import Mathlib

/-!
Verification development for the StreamStudio browser application
(src/new/js/app.js, src/new/js/modules/{recorder,streamer,chat,ai}.js
and the transcript module).  The JavaScript modules are shallowly
embedded: each module object becomes a structure, each method a pure
function on that structure.  Asynchronous environment outcomes
(MediaRecorder start success, getUserMedia success, Math.random, the
remote classifier response, Date.now, generated ids, the local
timezone) are passed in as explicit parameters.  DOM rendering and
localStorage writes are modelled only through their observable data
(notice lists, persisted snapshots).
-/

/-- JS bounded-log idiom used by chat.js addMessage and ai.js logCommand:
`arr.push(x); if (arr.length > maxLen) arr.shift();`. -/
def pushBounded (maxLen : Nat) (xs : List α) (x : α) : List α :=
  let ys := xs ++ [x]
  if maxLen < ys.length then ys.tail else ys

/-- Whether `pat` occurs as a contiguous sublist of `l` (helper for the
substring test, structurally recursive so it evaluates by reduction). -/
def listContains (pat : List Char) : List Char → Bool
  | [] => pat.isEmpty
  | c :: t => pat.isPrefixOf (c :: t) || listContains pat t

/-- JS `String.prototype.includes`: true when `pat` occurs as a substring
of `s` (the empty pattern always matches). -/
def strIncludes (s pat : String) : Bool :=
  listContains pat.data s.data

/-- JS `String.prototype.trim`, modelled structurally over the character
list (drop leading and trailing whitespace). -/
def strTrim (s : String) : String :=
  String.mk
    (((s.data.dropWhile Char.isWhitespace).reverse.dropWhile
        Char.isWhitespace).reverse)

/-- JS `String.prototype.padStart(n, "0")`. -/
def padStartZero (n : Nat) (s : String) : String :=
  String.mk (List.replicate (n - s.length) z) ++ s
where z : Char := Char.ofNat 48

/-! ## Chat module (src/new/js/modules/chat.js) -/

/-- A chat message object as built by Chat.sendMessage /
addSystemMessage / addModeratorMessage. -/
structure ChatMessage where
  id : String
  text : String
  timestamp : Nat
  user : String
  msgType : String
  isModerator : Bool
deriving DecidableEq

/-- The Chat module state (constructor fields that carry data;
moderator and blocked-user sets are omitted, no claim touches them). -/
structure ChatState where
  messages : List ChatMessage
  isVisible : Bool
  maxMessages : Nat
deriving DecidableEq

/-- Chat constructor: empty message list, visible, capacity 100. -/
def ChatState.init : ChatState :=
  { messages := [], isVisible := true, maxMessages := 100 }

/-- Chat.addMessage: push, then shift once when over maxMessages
(rendering and the save call are modelled separately). -/
def ChatState.addMessage (st : ChatState) (m : ChatMessage) : ChatState :=
  { st with messages := pushBounded st.maxMessages st.messages m }

/-- Chat.sendMessage: ignore blank input, otherwise append the user
message built from the trimmed text (the simulated viewer response is a
separate delayed callback, not part of this call). -/
def ChatState.sendMessage (st : ChatState) (message : String)
    (freshId : String) (now : Nat) : ChatState :=
  if strTrim message = "" then st
  else st.addMessage
    { id := freshId, text := strTrim message, timestamp := now,
      user := "You", msgType := "user", isModerator := false }

/-- Chat.clearChat: empties the list only when the user confirms. -/
def ChatState.clearChat (st : ChatState) (confirmed : Bool) : ChatState :=
  if confirmed then { st with messages := [] } else st

/-- Chat.saveChatHistory: the snapshot written to localStorage is
`this.messages.slice(-50)`, the last 50 messages. -/
def ChatState.saveChatHistory (st : ChatState) : List ChatMessage :=
  st.messages.drop (st.messages.length - 50)

/-! ## AI module (src/new/js/modules/ai.js) -/

/-- One entry of the AI command history as built in executeCommand.
`confidence` is `none` when the matched command carries no confidence
field (direct and fuzzy table matches destructure an absent field). -/
structure AICommandLogEntry where
  action : String
  originalTranscript : String
  confidence : Option ℚ
  cmdType : String
  timestamp : Nat
deriving DecidableEq

/-- The AI settings object. -/
structure AISettings where
  apiKey : String
  language : String
  sensitivity : ℚ
  commands : List (String × String)
deriving DecidableEq

/-- The default direct command table, in source iteration order. -/
def defaultCommands : List (String × String) :=
  [("start recording", "startRecording"), ("stop recording", "stopRecording"),
   ("go live", "startStreaming"), ("end stream", "stopStreaming"),
   ("take screenshot", "takeScreenshot"), ("mute audio", "toggleMute"),
   ("unmute audio", "toggleMute"), ("switch scene", "switchScene"),
   ("clear chat", "clearChat")]

/-- The fuzzy variation table in findMatchingCommand, in source order. -/
def fuzzyCommands : List (String × String) :=
  [("start record", "startRecording"), ("begin record", "startRecording"),
   ("stop record", "stopRecording"), ("end record", "stopRecording"),
   ("start stream", "startStreaming"), ("begin stream", "startStreaming"),
   ("stop stream", "stopStreaming"), ("end stream", "stopStreaming"),
   ("screenshot", "takeScreenshot"), ("capture", "takeScreenshot"),
   ("mute", "toggleMute"), ("unmute", "toggleMute"),
   ("scene", "switchScene"), ("clear", "clearChat")]

/-- Result of findMatchingCommand. -/
structure CommandMatch where
  action : String
  command : String
  matchType : String
deriving DecidableEq

/-- First table entry whose phrase occurs in the transcript
(`transcript.includes(command)`, table iteration order). -/
def findFirst (table : List (String × String)) (transcript : String)
    (ty : String) : Option CommandMatch :=
  match table with
  | [] => none
  | (cmd, act) :: rest =>
      if strIncludes transcript cmd then some ⟨act, cmd, ty⟩
      else findFirst rest transcript ty

/-- The AI module state. -/
structure AIState where
  isEnabled : Bool
  isListening : Bool
  settings : AISettings
  commandHistory : List AICommandLogEntry
  maxHistorySize : Nat
deriving DecidableEq

/-- AI constructor: disabled, default settings (sensitivity 0.7, no API
key), empty history, history capacity 50. -/
def AIState.init : AIState :=
  { isEnabled := false, isListening := false,
    settings := { apiKey := "", language := "en-US", sensitivity := 7/10,
                  commands := defaultCommands },
    commandHistory := [], maxHistorySize := 50 }

/-- AI.findMatchingCommand: direct table first, then the fuzzy table. -/
def AIState.findMatchingCommand (st : AIState) (transcript : String) :
    Option CommandMatch :=
  match findFirst st.settings.commands transcript "direct" with
  | some m => some m
  | none => findFirst fuzzyCommands transcript "fuzzy"

/-- The complete fixed command vocabulary (the eight case labels of the
switch in executeCommand, identical to the list given to the remote
classifier prompt). -/
def commandVocabulary : List String :=
  ["startRecording", "stopRecording", "startStreaming", "stopStreaming",
   "takeScreenshot", "toggleMute", "switchScene", "clearChat"]

/-- The switch statement of executeCommand: the DOM CustomEvent names
dispatched for each known action; the default branch only warns. -/
def dispatchAction (action : String) : List String :=
  if action = "startRecording" then ["ai-start-recording"]
  else if action = "stopRecording" then ["ai-stop-recording"]
  else if action = "startStreaming" then ["ai-start-streaming"]
  else if action = "stopStreaming" then ["ai-stop-streaming"]
  else if action = "takeScreenshot" then ["ai-take-screenshot"]
  else if action = "toggleMute" then ["ai-toggle-mute"]
  else if action = "switchScene" then ["ai-switch-scene"]
  else if action = "clearChat" then ["ai-clear-chat"]
  else []

/-- AI.logCommand: bounded push into commandHistory (capacity
maxHistorySize), then an opportunistic localStorage save. -/
def AIState.logCommand (st : AIState) (e : AICommandLogEntry) : AIState :=
  { st with commandHistory := pushBounded st.maxHistorySize st.commandHistory e }

/-- AI.executeCommand: always logs the command, then dispatches the
matching CustomEvent (none for an unknown action).  Returns the new
state and the list of dispatched event names. -/
def AIState.executeCommand (st : AIState) (action : String)
    (confidence : Option ℚ) (ty : String) (originalTranscript : String)
    (now : Nat) : AIState × List String :=
  (st.logCommand
    { action := action, originalTranscript := originalTranscript,
      confidence := confidence, cmdType := ty, timestamp := now },
   dispatchAction action)

/-- The remote classifier reply as returned by sendToAI
(`{action, confidence, reason}` after the `|| 0.5` confidence default
applied while parsing the HTTP response). -/
structure RemoteResponse where
  action : String
  confidence : ℚ
  reason : String
deriving DecidableEq

/-- AI.processNaturalLanguageCommand: requires a configured API key;
`remote` is the classifier outcome (`none` for a network or API error,
which is only logged).  A truthy (non-empty) action is executed. -/
def AIState.processNaturalLanguageCommand (st : AIState) (transcript : String)
    (remote : Option RemoteResponse) (now : Nat) : AIState × List String :=
  if st.settings.apiKey = "" then (st, [])
  else
    match remote with
    | none => (st, [])
    | some r =>
        if r.action ≠ "" then
          st.executeCommand r.action (some r.confidence) "ai" transcript now
        else (st, [])

/-- AI.processCommand: table match first, else the remote fallback.
A direct or fuzzy match carries no confidence field. -/
def AIState.processCommand (st : AIState) (transcript : String)
    (remote : Option RemoteResponse) (now : Nat) : AIState × List String :=
  match st.findMatchingCommand transcript with
  | some m => st.executeCommand m.action none m.matchType transcript now
  | none => st.processNaturalLanguageCommand transcript remote now

/-- AI.handleRecognitionResult for the last recognition alternative:
only a final result with confidence at or above the sensitivity
threshold is processed (the transcript is lowercased and trimmed). -/
def AIState.handleRecognitionResult (st : AIState) (transcript : String)
    (confidence : ℚ) (isFinal : Bool) (remote : Option RemoteResponse)
    (now : Nat) : AIState × List String :=
  if isFinal then
    if st.settings.sensitivity ≤ confidence then
      st.processCommand (strTrim transcript.toLower) remote now
    else (st, [])
  else (st, [])

/-- AI.setEnabled (recognition engine start and stop are environment
callbacks; the flag always reflects the last set request). -/
def AIState.setEnabled (st : AIState) (enabled : Bool) : AIState :=
  { st with isEnabled := enabled }

/-! ## Transcript module (src/unnamed/part_000) -/

/-- A committed transcript segment as built by addTranscriptSegment. -/
structure TranscriptSegment where
  id : String
  text : String
  timestamp : Nat
  startTime : Nat
  endTime : Nat
  confidence : ℚ
deriving DecidableEq

/-- The Transcript module state.  `recognitionAvailable` records
whether setupSpeechRecognition found a browser engine. -/
structure TranscriptState where
  isActive : Bool
  transcript : List TranscriptSegment
  currentSegment : String
  segmentStartTime : Option Nat
  recognitionAvailable : Bool
deriving DecidableEq

/-- Transcript constructor plus init: inactive, empty segment list,
empty interim buffer. -/
def TranscriptState.init (recogSupported : Bool) : TranscriptState :=
  { isActive := false, transcript := [], currentSegment := "",
    segmentStartTime := none, recognitionAvailable := recogSupported }

/-- Transcript.start: no-op without a recognition engine or when already
active; otherwise activates and RESETS the committed segment list and
the interim buffer (`this.transcript = []`). -/
def TranscriptState.start (st : TranscriptState) (now : Nat) : TranscriptState :=
  if !st.recognitionAvailable then st
  else if st.isActive then st
  else { st with isActive := true, transcript := [], currentSegment := "",
                 segmentStartTime := some now }

/-- Transcript.addTranscriptSegment: ignore blank text, otherwise append
a segment (startTime falls back to now when no segment start was
recorded) and reset the interim buffer. -/
def TranscriptState.addTranscriptSegment (st : TranscriptState)
    (freshId : String) (now : Nat) (text : String) : TranscriptState :=
  if strTrim text = "" then st
  else
    { st with
      transcript := st.transcript ++
        [{ id := freshId, text := strTrim text, timestamp := now,
           startTime := st.segmentStartTime.getD now, endTime := now,
           confidence := 1 }],
      currentSegment := "",
      segmentStartTime := some now }

/-- Transcript.stop: no-op when inactive; otherwise deactivate and
commit a non-blank interim remainder as a final segment. -/
def TranscriptState.stop (st : TranscriptState) (freshId : String)
    (now : Nat) : TranscriptState :=
  if !st.isActive then st
  else
    let st1 := { st with isActive := false }
    if strTrim st1.currentSegment ≠ "" then
      st1.addTranscriptSegment freshId now st1.currentSegment
    else st1

/-- Transcript.formatSRTTime: JS builds `new Date(timestamp)` and reads
getHours/getMinutes/getSeconds/getMilliseconds, which are LOCAL time;
the environment timezone is passed as an offset in minutes to add to
UTC (floor division and euclidean remainder match the JS Date
field computation). -/
def formatSRTTime (tzOffsetMin : Int) (timestamp : Nat) : String :=
  let localMs : Int := (timestamp : Int) + tzOffsetMin * 60000
  let hours := (Int.fdiv localMs 3600000).emod 24
  let minutes := (Int.fdiv localMs 60000).emod 60
  let seconds := (Int.fdiv localMs 1000).emod 60
  let millis := localMs.emod 1000
  padStartZero 2 (toString hours.toNat) ++ ":" ++
  padStartZero 2 (toString minutes.toNat) ++ ":" ++
  padStartZero 2 (toString seconds.toNat) ++ "," ++
  padStartZero 3 (toString millis.toNat)

/-- The numbered SRT entries for a committed segment list starting at
index `i` (exportAsSRT iterates with forEach over the index). -/
def srtEntries (tz : Int) : Nat → List TranscriptSegment → String
  | _, [] => ""
  | i, seg :: rest =>
      toString (i + 1) ++ "\n" ++
      formatSRTTime tz seg.startTime ++ " --> " ++
      formatSRTTime tz seg.endTime ++ "\n" ++
      seg.text ++ "\n\n" ++ srtEntries tz (i + 1) rest

/-- Transcript.exportAsSRT: reads only `this.transcript` (never the
interim currentSegment buffer). -/
def TranscriptState.exportAsSRT (st : TranscriptState) (tz : Int) : String :=
  srtEntries tz 0 st.transcript

/-! ## Streamer module (src/new/js/modules/streamer.js) -/

/-- A platform table entry. -/
structure PlatformConfig where
  name : String
  serverUrl : String
  requiresKey : Bool
deriving DecidableEq

/-- The Streamer settings object. -/
structure StreamerSettings where
  streamKey : String
  serverUrl : String
  bitrate : Nat
  resolution : String
  frameRate : Nat
deriving DecidableEq

/-- The Streamer module state. -/
structure StreamerState where
  isStreaming : Bool
  viewerCount : Nat
  settings : StreamerSettings
deriving DecidableEq

/-- The fixed `this.platforms` table. -/
def platformTable (p : String) : Option PlatformConfig :=
  if p = "youtube" then
    some ⟨"YouTube Live", "rtmp://a.rtmp.youtube.com/live2", true⟩
  else if p = "twitch" then
    some ⟨"Twitch", "rtmp://live.twitch.tv/live", true⟩
  else if p = "facebook" then
    some ⟨"Facebook Live", "rtmp://rtmp-api.facebook.com:80/rtmp", true⟩
  else if p = "custom" then
    some ⟨"Custom RTMP", "", true⟩
  else none

/-- Streamer constructor state: not streaming, zero viewers, blank key. -/
def StreamerState.init : StreamerState :=
  { isStreaming := false, viewerCount := 0,
    settings := { streamKey := "", serverUrl := "", bitrate := 2500,
                  resolution := "1920x1080", frameRate := 30 } }

/-- Streamer.start: rejects a second start, an unknown platform, and a
missing stream key; otherwise (after the simulated connection delay)
marks the session live. -/
def StreamerState.start (st : StreamerState) (platform : String) :
    Except String StreamerState :=
  if st.isStreaming then .error "Streaming is already in progress"
  else
    match platformTable platform with
    | none => .error "Invalid platform selected"
    | some cfg =>
        if cfg.requiresKey && st.settings.streamKey = "" then
          .error "Stream key is required for this platform"
        else .ok { st with isStreaming := true }

/-- Streamer.stop: throws when not streaming; otherwise clears the flag
and resets the viewer count. -/
def StreamerState.stop (st : StreamerState) : Except String StreamerState :=
  if !st.isStreaming then .error "No streaming in progress"
  else .ok { st with isStreaming := false, viewerCount := 0 }

/-- Streamer.testConnection: a simulated probe.  `rnd` is the
Math.random() draw; the verdict is success when rnd exceeds 0.3.  The
three arguments are not read and no instance state is touched; the
streamer state is returned unchanged. -/
def StreamerState.testConnection (st : StreamerState)
    (platform streamKey serverUrl : String) (rnd : ℚ) :
    StreamerState × Bool × String :=
  if 3/10 < rnd then (st, true, "Connection test successful")
  else
    (st, false,
     "Connection test failed. Please check your stream key and server URL.")

/-! ## Recorder module (src/new/js/modules/recorder.js) -/

/-- The Recorder module state.  Chunks are byte sizes; the stream is an
opaque handle to the acquired capture source. -/
structure RecorderState where
  isRecording : Bool
  recordedChunks : List Nat
  stream : Option Nat
deriving DecidableEq

/-- Recorder constructor state. -/
def RecorderState.init : RecorderState :=
  { isRecording := false, recordedChunks := [], stream := none }

/-- Recorder.start: throws when already recording; `engineOk` is the
environment outcome of constructing and starting the MediaRecorder
(codec fallback succeeds silently, a hard failure throws). -/
def RecorderState.start (rec : RecorderState) (engineOk : Bool) :
    Except String RecorderState :=
  if rec.isRecording then .error "Recording is already in progress"
  else if engineOk then
    .ok { rec with isRecording := true, recordedChunks := [] }
  else .error "MediaRecorder start failed"

/-! ## StreamStudio controller (embedded auth variant,
src/new/js/modules/recorder.js lines 338-963; the plain variant in
src/new/js/app.js shares stopStreaming/startStreaming verbatim) -/

/-- A queued post-auth action: the zero-argument closures stored in
`this.postAuthAction` by requireAuth.  The three call sites are
startRecording, sendChatMessage (capturing the trimmed pending
message) and toggleAICommands. -/
inductive PendingAction where
  | startRecording
  | sendChat (message : String)
  | enableAI
deriving DecidableEq

/-- Guard that the gated attempt actually reaches the auth gate: the
chat path first drops a blank message, and the stored message is the
trimmed input. -/
def PendingAction.wellFormed : PendingAction → Bool
  | .sendChat m => strTrim m == m && m != ""
  | _ => true

/-- The controller state.  `errorNotices` and `statusUpdates` record
the user-visible showError alerts and status/notification updates;
`resumedActions` is a ghost trace of queued actions actually invoked by
resumePostAuthAction; `engineStartCalls` is a ghost count of
Recorder.start invocations. -/
structure AppState where
  recorder : RecorderState
  streamer : StreamerState
  chat : ChatState
  transcriptMod : TranscriptState
  ai : AIState
  isRecording : Bool
  isStreaming : Bool
  currentSource : Option Nat
  auth : Option String
  postAuthAction : Option PendingAction
  startAfterSource : Bool
  errorNotices : List String
  statusUpdates : List String
  resumedActions : List PendingAction
  engineStartCalls : Nat
deriving DecidableEq

/-- StreamStudio constructor: all module states fresh, flags down, auth
loaded from persistence. -/
def AppState.init (savedAuth : Option String) : AppState :=
  { recorder := RecorderState.init, streamer := StreamerState.init,
    chat := ChatState.init, transcriptMod := TranscriptState.init true,
    ai := AIState.init,
    isRecording := false, isStreaming := false, currentSource := none,
    auth := savedAuth, postAuthAction := none, startAfterSource := false,
    errorNotices := [], statusUpdates := [], resumedActions := [],
    engineStartCalls := 0 }

/-- showError: one human-readable failure alert. -/
def AppState.showError (st : AppState) (msg : String) : AppState :=
  { st with errorNotices := st.errorNotices ++ [msg] }

/-- requireAuth: store the attempted action (overwriting any previous
pending action) and open the sign-in surface. -/
def AppState.requireAuth (st : AppState) (a : PendingAction) : AppState :=
  { st with postAuthAction := some a }

/-- StreamStudio.startRecording (embedded auth variant): auth gate
first; with no current source, remember the deferred start and open the
source modal; otherwise invoke Recorder.start and on success flip the
recording flag, report status and start the transcript engine. -/
def AppState.startRecording (st : AppState) (engineOk : Bool) (now : Nat) :
    AppState :=
  if st.auth.isNone then st.requireAuth .startRecording
  else
    match st.currentSource with
    | none => { st with startAfterSource := true }
    | some _ =>
        match st.recorder.start engineOk with
        | .error _ =>
            { st with
              engineStartCalls := st.engineStartCalls + 1,
              errorNotices := st.errorNotices ++ ["Failed to start recording"] }
        | .ok r =>
            { st with
              engineStartCalls := st.engineStartCalls + 1,
              recorder := r, isRecording := true,
              statusUpdates := st.statusUpdates ++ ["Recording"],
              transcriptMod := st.transcriptMod.start now }

/-- StreamStudio.selectSource: on acquisition success replace the
current source; when a deferred recording start is pending, clear the
flag and auto-retry startRecording once; on failure report the error. -/
def AppState.selectSource (st : AppState) (src : Nat) (acqOk : Bool)
    (engineOk : Bool) (now : Nat) : AppState :=
  if acqOk then
    if st.startAfterSource then
      AppState.startRecording
        { st with
          currentSource := some src,
          recorder := { st.recorder with stream := some src },
          startAfterSource := false } engineOk now
    else
      { st with
        currentSource := some src,
        recorder := { st.recorder with stream := some src } }
  else st.showError "Failed to select video source"

/-- StreamStudio.sendChatMessage: blank input is ignored; while
unauthenticated the trimmed message is queued behind the auth gate;
otherwise it goes to Chat.sendMessage. -/
def AppState.sendChatMessage (st : AppState) (input : String)
    (freshId : String) (now : Nat) : AppState :=
  let message := strTrim input
  if message = "" then st
  else if st.auth.isNone then st.requireAuth (.sendChat message)
  else { st with chat := st.chat.sendMessage message freshId now }

/-- StreamStudio.toggleAICommands: enabling while unauthenticated
reverts the toggle and queues the enable behind the auth gate. -/
def AppState.toggleAICommands (st : AppState) (enabled : Bool) : AppState :=
  if enabled && st.auth.isNone then st.requireAuth .enableAI
  else { st with ai := st.ai.setEnabled enabled }

/-- The body of a queued post-auth closure: the startRecording closure
re-enters startRecording, the chat closure sends the captured message
directly to Chat.sendMessage, the AI closure re-enables the engine. -/
def AppState.runPendingAction (st : AppState) (a : PendingAction)
    (engineOk : Bool) (freshId : String) (now : Nat) : AppState :=
  match a with
  | .startRecording => st.startRecording engineOk now
  | .sendChat m => { st with chat := st.chat.sendMessage m freshId now }
  | .enableAI => { st with ai := st.ai.setEnabled true }

/-- StreamStudio.resumePostAuthAction: take the pending action, clear
the slot, then invoke it (the ghost trace records the invocation). -/
def AppState.resumePostAuthAction (st : AppState) (engineOk : Bool)
    (freshId : String) (now : Nat) : AppState :=
  match st.postAuthAction with
  | none => st
  | some a =>
      AppState.runPendingAction
        { st with
          postAuthAction := none,
          resumedActions := st.resumedActions ++ [a] }
        a engineOk freshId now

/-- StreamStudio.handleAuthSignIn: reject blank credentials with one
error notice; otherwise store the identity, resume the pending action
and show the signed-in notification. -/
def AppState.handleAuthSignIn (st : AppState) (email password : String)
    (engineOk : Bool) (freshId : String) (now : Nat) : AppState :=
  if strTrim email = "" ∨ password = "" then
    st.showError "Please enter email and password"
  else
    let st1 := { st with auth := some (strTrim email) }
    let st2 := st1.resumePostAuthAction engineOk freshId now
    { st2 with statusUpdates := st2.statusUpdates ++ ["Signed in"] }

/-- StreamStudio.startStreaming: platform and source validation, then
Streamer.start; the live flag flips only on success. -/
def AppState.startStreaming (st : AppState) (platform : String) : AppState :=
  if platform = "" then st.showError "Please select a streaming platform"
  else if st.currentSource.isNone then
    st.showError "Please select a video source first"
  else
    match st.streamer.start platform with
    | .error _ => st.showError "Failed to start streaming"
    | .ok s =>
        { st with
          streamer := s, isStreaming := true,
          statusUpdates := st.statusUpdates ++ ["Streaming"] }

/-- StreamStudio.stopStreaming: awaits Streamer.stop inside the try
block; the flag reset and status update run only on success, the catch
arm issues exactly one failure alert. -/
def AppState.stopStreaming (st : AppState) : AppState :=
  match st.streamer.stop with
  | .error _ => st.showError "Failed to stop streaming"
  | .ok s =>
      { st with
        streamer := s, isStreaming := false,
        statusUpdates := st.statusUpdates ++ ["Ready"] }

/-- Dispatcher for a gated-action attempt, used to state the auth-gate
claims uniformly over the three gated entry points. -/
def AppState.attemptGated (st : AppState) (a : PendingAction)
    (engineOk : Bool) (freshId : String) (now : Nat) : AppState :=
  match a with
  | .startRecording => st.startRecording engineOk now
  | .sendChat m => st.sendChatMessage m freshId now
  | .enableAI => st.toggleAICommands true

/-! ## Helper lemmas about the bounded-log idiom -/

theorem pushBounded_of_length_lt {m : Nat} {xs : List α} (x : α)
    (h : xs.length < m) : pushBounded m xs x = xs ++ [x] := by
  simp only [pushBounded]
  rw [if_neg]
  simp only [List.length_append, List.length_cons, List.length_nil, not_lt]
  omega

theorem pushBounded_evict {m : Nat} {xs : List α} (x : α)
    (h : xs.length = m) (hne : xs ≠ []) :
    pushBounded m xs x = xs.tail ++ [x] := by
  simp only [pushBounded]
  rw [if_pos (by simp only [List.length_append, List.length_cons, List.length_nil]; omega)]
  cases xs with
  | nil => exact absurd rfl hne
  | cons a t => simp

theorem foldl_pushBounded_eq_append (m : Nat) (items : List α) :
    ∀ acc : List α, acc.length + items.length ≤ m →
      items.foldl (pushBounded m) acc = acc ++ items := by
  induction items with
  | nil => intro acc _; simp
  | cons x rest ih =>
      intro acc h
      simp only [List.foldl_cons]
      rw [pushBounded_of_length_lt x (by simp only [List.length_cons] at h; omega)]
      rw [ih (acc ++ [x]) (by simp only [List.length_append, List.length_cons,
        List.length_nil] at h ⊢; omega)]
      simp

theorem foldl_pushBounded_overflow (m : Nat) (hm : 0 < m)
    (items : List α) (h : items.length = m + 1) :
    items.foldl (pushBounded m) [] = items.tail := by
  have hta : (items.take m).length = m := by
    rw [List.length_take]; omega
  have hd : (items.drop m).length = 1 := by
    rw [List.length_drop]; omega
  obtain ⟨z, hz⟩ := List.length_eq_one.mp hd
  have hsplit : items = items.take m ++ [z] := by
    conv_lhs => rw [← List.take_append_drop m items]
    rw [hz]
  rw [hsplit, List.foldl_append]
  rw [foldl_pushBounded_eq_append m (items.take m) [] (by simp [hta])]
  simp only [List.nil_append, List.foldl_cons, List.foldl_nil]
  rw [pushBounded_evict z hta (by
    intro hnil
    rw [hnil] at hta
    simp at hta
    omega)]
  cases htake : items.take m with
  | nil => rw [htake] at hta; simp at hta; omega
  | cons a t => simp

theorem chat_foldl_messages (items : List ChatMessage) :
    ∀ c : ChatState,
      (items.foldl ChatState.addMessage c).messages
        = items.foldl (pushBounded c.maxMessages) c.messages := by
  induction items with
  | nil => intro c; simp
  | cons x rest ih =>
      intro c
      simp only [List.foldl_cons]
      rw [ih (c.addMessage x)]
      rfl

theorem ai_foldl_history (items : List AICommandLogEntry) :
    ∀ a : AIState,
      (items.foldl AIState.logCommand a).commandHistory
        = items.foldl (pushBounded a.maxHistorySize) a.commandHistory := by
  induction items with
  | nil => intro a; simp
  | cons x rest ih =>
      intro a
      simp only [List.foldl_cons]
      rw [ih (a.logCommand x)]
      rfl

/-! ## Streaming-flag synchronisation invariant

In every reachable session state the controller flag `isStreaming`
mirrors `streamer.isStreaming`: it holds initially and is preserved by
every operation (the operations below are the only ones touching either
field). -/

theorem StreamerState.start_ok_isStreaming {st : StreamerState} {p : String}
    {s : StreamerState} (h : st.start p = .ok s) : s.isStreaming = true := by
  unfold StreamerState.start at h
  split at h
  · exact absurd h (by simp)
  · split at h
    · exact absurd h (by simp)
    · split at h
      · exact absurd h (by simp)
      · cases h; rfl

theorem StreamerState.stop_ok_isStreaming {st : StreamerState}
    {s : StreamerState} (h : st.stop = .ok s) : s.isStreaming = false := by
  unfold StreamerState.stop at h
  split at h
  · exact absurd h (by simp)
  · cases h; rfl

theorem streamSync_init (savedAuth : Option String) :
    (AppState.init savedAuth).isStreaming
      = (AppState.init savedAuth).streamer.isStreaming := rfl

theorem streamSync_startStreaming (st : AppState) (platform : String)
    (h : st.isStreaming = st.streamer.isStreaming) :
    (st.startStreaming platform).isStreaming
      = (st.startStreaming platform).streamer.isStreaming := by
  unfold AppState.startStreaming
  split
  · exact h
  · split
    · exact h
    · cases hs : st.streamer.start platform with
      | error e => exact h
      | ok s => simpa using (StreamerState.start_ok_isStreaming hs).symm

theorem streamSync_stopStreaming (st : AppState)
    (h : st.isStreaming = st.streamer.isStreaming) :
    (st.stopStreaming).isStreaming = (st.stopStreaming).streamer.isStreaming := by
  unfold AppState.stopStreaming
  cases hs : st.streamer.stop with
  | error e => exact h
  | ok s => simpa using (StreamerState.stop_ok_isStreaming hs).symm

theorem startRecording_frame_streaming (st : AppState) (engineOk : Bool)
    (now : Nat) :
    (st.startRecording engineOk now).isStreaming = st.isStreaming ∧
    (st.startRecording engineOk now).streamer = st.streamer := by
  unfold AppState.startRecording
  split
  · exact ⟨rfl, rfl⟩
  · split
    · exact ⟨rfl, rfl⟩
    · split
      · exact ⟨rfl, rfl⟩
      · exact ⟨rfl, rfl⟩

theorem selectSource_frame_streaming (st : AppState) (src : Nat)
    (acqOk engineOk : Bool) (now : Nat) :
    (st.selectSource src acqOk engineOk now).isStreaming = st.isStreaming ∧
    (st.selectSource src acqOk engineOk now).streamer = st.streamer := by
  unfold AppState.selectSource
  split
  · split
    · exact startRecording_frame_streaming
        { st with
          currentSource := some src,
          recorder := { st.recorder with stream := some src },
          startAfterSource := false } engineOk now
    · exact ⟨rfl, rfl⟩
  · exact ⟨rfl, rfl⟩

/-- C1: best-effort streaming stop.  In any session state where the
controller flag mirrors the streamer flag (the reachable states, by the
lemmas above), a stop-streaming request whose inner Streamer.stop call
throws leaves the streaming state Idle (isStreaming = false) when the
call returns, and issues exactly one human-readable failure notice. -/
theorem C1_best_effort_stop (st : AppState) (msg : String)
    (hsync : st.isStreaming = st.streamer.isStreaming)
    (hfail : st.streamer.stop = .error msg) :
    (st.stopStreaming).isStreaming = false ∧
    (st.stopStreaming).errorNotices
      = st.errorNotices ++ ["Failed to stop streaming"] := by
  have hflag : st.streamer.isStreaming = false := by
    by_contra hn
    have htrue : st.streamer.isStreaming = true := by
      cases hb : st.streamer.isStreaming
      · exact absurd hb hn
      · rfl
    unfold StreamerState.stop at hfail
    rw [htrue] at hfail
    simp at hfail
  constructor
  · unfold AppState.stopStreaming
    rw [hfail]
    simp only [AppState.showError]
    rw [hsync]
    exact hflag
  · unfold AppState.stopStreaming
    rw [hfail]
    rfl

/-- C1 witness: the fresh session state, where Streamer.stop throws
the no-streaming-in-progress error. -/
theorem C1_best_effort_stop_witness :
    ((AppState.init none).stopStreaming).isStreaming = false ∧
    ((AppState.init none).stopStreaming).errorNotices
      = (AppState.init none).errorNotices ++ ["Failed to stop streaming"] :=
  C1_best_effort_stop (AppState.init none) "No streaming in progress" rfl rfl

/-- C7: confidence gating.  A finalized utterance whose confidence is
strictly below the configured sensitivity threshold is dropped by
handleRecognitionResult: no command resolution, no dispatched command
event, and no command-log entry (the AI state is unchanged). -/
theorem C7_confidence_gating (st : AIState) (transcript : String)
    (conf : ℚ) (remote : Option RemoteResponse) (now : Nat)
    (h : conf < st.settings.sensitivity) :
    st.handleRecognitionResult transcript conf true remote now = (st, []) := by
  unfold AIState.handleRecognitionResult
  rw [if_pos rfl, if_neg (not_le.mpr h)]

/-- C7 witness: confidence 0.5 against the default 0.7 threshold. -/
theorem C7_confidence_gating_witness :
    AIState.init.handleRecognitionResult "start recording" (1/2) true none 0
      = (AIState.init, []) :=
  C7_confidence_gating AIState.init "start recording" (1/2) none 0
    (by simp only [AIState.init]; norm_num)

/-- C9: testConnection is read-only.  For every platform, key, url and
random draw, the probe leaves the entire streamer state (isStreaming,
viewerCount, settings; the platform table is a constant) unchanged and
returns a verdict paired with a fixed human-readable message. -/
theorem C9_testConnection_read_only (st : StreamerState)
    (platform streamKey serverUrl : String) (rnd : ℚ) :
    (st.testConnection platform streamKey serverUrl rnd).1 = st ∧
    (((st.testConnection platform streamKey serverUrl rnd).2.1 = true ∧
      (st.testConnection platform streamKey serverUrl rnd).2.2
        = "Connection test successful") ∨
     ((st.testConnection platform streamKey serverUrl rnd).2.1 = false ∧
      (st.testConnection platform streamKey serverUrl rnd).2.2
        = "Connection test failed. Please check your stream key and server URL.")) := by
  unfold StreamerState.testConnection
  by_cases h : (3/10 : ℚ) < rnd
  · rw [if_pos h]
    exact ⟨rfl, Or.inl ⟨rfl, rfl⟩⟩
  · rw [if_neg h]
    exact ⟨rfl, Or.inr ⟨rfl, rfl⟩⟩

/-- C10: the persisted chat snapshot written after an append is the
suffix of the in-memory list of length min 50 len: the last 50 messages
in arrival order, with all older in-memory messages absent. -/
theorem C10_persisted_chat_snapshot (c : ChatState) (m : ChatMessage) :
    ((c.addMessage m).saveChatHistory
        = (c.addMessage m).messages.drop ((c.addMessage m).messages.length - 50)) ∧
    ((c.addMessage m).saveChatHistory.length
        = min 50 (c.addMessage m).messages.length) ∧
    ((c.addMessage m).messages
        = (c.addMessage m).messages.take ((c.addMessage m).messages.length - 50)
            ++ (c.addMessage m).saveChatHistory) := by
  refine ⟨rfl, ?_, ?_⟩
  · unfold ChatState.saveChatHistory
    rw [List.length_drop]
    omega
  · exact (List.take_append_drop _ _).symm

theorem pushBounded_ne_nil {m : Nat} (hm : 0 < m) (xs : List α) (x : α) :
    pushBounded m xs x ≠ [] := by
  simp only [pushBounded]
  split
  · rename_i hcond
    simp only [List.length_append, List.length_cons, List.length_nil] at hcond
    intro hnil
    have hlen := congrArg List.length hnil
    simp only [List.length_tail, List.length_append, List.length_cons,
      List.length_nil] at hlen
    omega
  · simp

/-- A committed segment used in concrete counterexamples. -/
def sampleSegment : TranscriptSegment :=
  { id := "seg1", text := "hello", timestamp := 100, startTime := 0,
    endTime := 100, confidence := 1 }

/-- A chat message used in concrete witnesses. -/
def sampleMessage : ChatMessage :=
  { id := "m1", text := "hi", timestamp := 0, user := "You",
    msgType := "user", isModerator := false }

/-- C3 counterexample: starting a new transcription run DOES discard
previously committed segments: Transcript.start on an inactive state
holding one committed segment resets the list to empty. -/
theorem C3_transcript_clearing_counterexample :
    (TranscriptState.start
      { isActive := false, transcript := [sampleSegment], currentSegment := "",
        segmentStartTime := none, recognitionAvailable := true } 500).transcript
      = []
    ∧ ([sampleSegment] : List TranscriptSegment) ≠ [] := by
  constructor
  · rfl
  · simp

/-- C3 (amended): the three sequences start empty at subsystem init;
chat messages are cleared only by the confirmed explicit clear action
and never by an append; the AI command log is never cleared by an
append; transcript segment commits and Transcript.stop preserve all
committed segments; but Transcript.start resets the committed segment
list to empty when it begins a new run. -/
theorem C3_transcript_clearing_amended :
    (∀ b : Bool, (TranscriptState.init b).transcript = []) ∧
    ChatState.init.messages = [] ∧
    AIState.init.commandHistory = [] ∧
    (∀ (ts : TranscriptState) (now : Nat),
      ts.recognitionAvailable = true → ts.isActive = false →
        (ts.start now).transcript = [] ∧ (ts.start now).isActive = true) ∧
    (∀ (ts : TranscriptState) (freshId : String) (now : Nat) (text : String),
      (ts.addTranscriptSegment freshId now text).transcript = ts.transcript ∨
      (ts.addTranscriptSegment freshId now text).transcript
        = ts.transcript ++
          [{ id := freshId, text := strTrim text, timestamp := now,
             startTime := ts.segmentStartTime.getD now, endTime := now,
             confidence := 1 }]) ∧
    (∀ (ts : TranscriptState) (freshId : String) (now : Nat),
      (ts.stop freshId now).transcript = ts.transcript ∨
      (ts.stop freshId now).transcript
        = ts.transcript ++
          [{ id := freshId, text := strTrim ts.currentSegment, timestamp := now,
             startTime := ts.segmentStartTime.getD now, endTime := now,
             confidence := 1 }]) ∧
    (∀ c : ChatState, (c.clearChat true).messages = [] ∧
      (c.clearChat false).messages = c.messages) ∧
    (∀ (c : ChatState) (m : ChatMessage),
      0 < c.maxMessages → (c.addMessage m).messages ≠ []) ∧
    (∀ (a : AIState) (e : AICommandLogEntry),
      0 < a.maxHistorySize → (a.logCommand e).commandHistory ≠ []) := by
  refine ⟨fun b => rfl, rfl, rfl, ?_, ?_, ?_, ?_, ?_, ?_⟩
  · intro ts now h1 h2
    unfold TranscriptState.start
    rw [h1, h2]
    exact ⟨rfl, rfl⟩
  · intro ts freshId now text
    unfold TranscriptState.addTranscriptSegment
    by_cases h : strTrim text = ""
    · rw [if_pos h]
      exact Or.inl rfl
    · rw [if_neg h]
      exact Or.inr rfl
  · intro ts freshId now
    unfold TranscriptState.stop
    by_cases hA : ts.isActive
    · rw [hA]
      simp only [Bool.not_true, Bool.false_eq_true, if_false]
      by_cases hC : strTrim ts.currentSegment = ""
      · rw [if_neg (by simpa using hC)]
        exact Or.inl rfl
      · rw [if_pos (by simpa using hC)]
        unfold TranscriptState.addTranscriptSegment
        rw [if_neg hC]
        exact Or.inr rfl
    · rw [Bool.not_eq_true] at hA
      rw [hA]
      exact Or.inl rfl
  · intro c
    exact ⟨rfl, rfl⟩
  · intro c m hc
    simp only [ChatState.addMessage]
    exact pushBounded_ne_nil hc _ _
  · intro a e ha
    simp only [AIState.logCommand]
    exact pushBounded_ne_nil ha _ _

/-- C3 amended witness: a fresh run clears the (empty) list and
activates; an append to the fresh chat leaves it nonempty. -/
theorem C3_transcript_clearing_amended_witness :
    ((TranscriptState.init true).start 7).transcript = [] ∧
    ((TranscriptState.init true).start 7).isActive = true ∧
    (ChatState.init.addMessage sampleMessage).messages ≠ [] := by
  refine ⟨?_, ?_, ?_⟩
  · exact (C3_transcript_clearing_amended.2.2.2.1 (TranscriptState.init true) 7 rfl rfl).1
  · exact (C3_transcript_clearing_amended.2.2.2.1 (TranscriptState.init true) 7 rfl rfl).2
  · exact C3_transcript_clearing_amended.2.2.2.2.2.2.2.1 ChatState.init sampleMessage
      (by decide)

/-- The two-segment transcript of the export-fidelity test vector:
segments Hello (0ms to 500ms) and world (600ms to 1000ms). -/
def exportExample : TranscriptState :=
  { isActive := false,
    transcript :=
      [{ id := "s1", text := "Hello", timestamp := 0, startTime := 0,
         endTime := 500, confidence := 1 },
       { id := "s2", text := "world", timestamp := 0, startTime := 600,
         endTime := 1000, confidence := 1 }],
    currentSegment := "", segmentStartTime := none,
    recognitionAvailable := true }

/-- C4 counterexample: formatSRTTime renders the epoch-millisecond
boundaries through the LOCAL wall clock (JS getHours and friends), so
in an environment at UTC+05:30 (offset 330 minutes) the exported time
fields are the wall-clock times 05:30:00,000 and so on, not the raw
segment boundaries the claim requires. -/
theorem C4_subtitle_export_counterexample :
    exportExample.exportAsSRT 330
      = "1\n05:30:00,000 --> 05:30:00,500\nHello\n\n2\n05:30:00,600 --> 05:30:01,000\nworld\n\n"
    ∧ exportExample.exportAsSRT 330
      ≠ "1\n00:00:00,000 --> 00:00:00,500\nHello\n\n2\n00:00:00,600 --> 00:00:01,000\nworld\n\n" := by
  constructor
  · rfl
  · decide

/-- C4 (amended): the SRT export is a pure function of the committed
segment sequence and the environment timezone only (never of the
in-progress buffer), so re-exporting the same committed sequence is
byte-identical; and in a UTC environment (offset 0) the test vector
yields exactly two entries numbered 1 and 2 whose monotonically
non-decreasing time fields equal the segment boundaries. -/
theorem C4_subtitle_export_amended :
    (∀ (tz : Int) (s1 s2 : TranscriptState), s1.transcript = s2.transcript →
      s1.exportAsSRT tz = s2.exportAsSRT tz) ∧
    exportExample.exportAsSRT 0
      = "1\n00:00:00,000 --> 00:00:00,500\nHello\n\n2\n00:00:00,600 --> 00:00:01,000\nworld\n\n" := by
  constructor
  · intro tz s1 s2 h
    unfold TranscriptState.exportAsSRT
    rw [h]
  · rfl

/-- C4 amended witness: a state with a pending interim buffer exports
identically to the committed-only state. -/
theorem C4_subtitle_export_amended_witness :
    TranscriptState.exportAsSRT
      { exportExample with currentSegment := "something in progress" } 0
      = exportExample.exportAsSRT 0 :=
  C4_subtitle_export_amended.1 0
    { exportExample with currentSegment := "something in progress" }
    exportExample rfl

/-- A numbered segment for bulk counterexample data. -/
def numberedSegment (i : Nat) : TranscriptSegment :=
  { id := toString i, text := toString i, timestamp := i, startTime := i,
    endTime := i, confidence := 1 }

/-- C5 counterexample: the transcript segment history is not capacity
bounded.  Committing a segment to a transcript already holding 100
segments keeps all of them: the length becomes 101 and the oldest
segment is still at the front (nothing was evicted). -/
theorem C5_fifo_eviction_counterexample :
    ((TranscriptState.addTranscriptSegment
        { isActive := true, transcript := (List.range 100).map numberedSegment,
          currentSegment := "", segmentStartTime := some 0,
          recognitionAvailable := true } "fresh" 777 "extra").transcript.length
      = 101)
    ∧ ((TranscriptState.addTranscriptSegment
        { isActive := true, transcript := (List.range 100).map numberedSegment,
          currentSegment := "", segmentStartTime := some 0,
          recognitionAvailable := true } "fresh" 777 "extra").transcript.head?
      = some (numberedSegment 0)) := by
  constructor
  · rfl
  · rfl

/-- C5 (amended): the chat log (capacity 100) and the AI command log
(capacity 50) evict exactly the oldest entry when full, so N+1 appends
from empty retain the newest N in arrival order; the transcript segment
history, however, is unbounded: a commit is a pure append and never
evicts. -/
theorem C5_fifo_eviction_amended :
    (∀ (c : ChatState) (m : ChatMessage),
      c.maxMessages = 100 → c.messages.length = 100 →
        (c.addMessage m).messages = c.messages.tail ++ [m]) ∧
    (∀ items : List ChatMessage, items.length = 101 →
      (items.foldl ChatState.addMessage ChatState.init).messages = items.tail) ∧
    (∀ (a : AIState) (e : AICommandLogEntry),
      a.maxHistorySize = 50 → a.commandHistory.length = 50 →
        (a.logCommand e).commandHistory = a.commandHistory.tail ++ [e]) ∧
    (∀ entries : List AICommandLogEntry, entries.length = 51 →
      (entries.foldl AIState.logCommand AIState.init).commandHistory
        = entries.tail) ∧
    (∀ (ts : TranscriptState) (freshId : String) (now : Nat) (text : String),
      strTrim text ≠ "" →
        (ts.addTranscriptSegment freshId now text).transcript
          = ts.transcript ++
            [{ id := freshId, text := strTrim text, timestamp := now,
               startTime := ts.segmentStartTime.getD now, endTime := now,
               confidence := 1 }]) := by
  refine ⟨?_, ?_, ?_, ?_, ?_⟩
  · intro c m h1 h2
    simp only [ChatState.addMessage]
    rw [h1]
    exact pushBounded_evict m (h1 ▸ h2)
      (by intro hnil; rw [hnil] at h2; simp at h2)
  · intro items h
    rw [chat_foldl_messages]
    exact foldl_pushBounded_overflow 100 (by omega) items h
  · intro a e h1 h2
    simp only [AIState.logCommand]
    rw [h1]
    exact pushBounded_evict e (h1 ▸ h2)
      (by intro hnil; rw [hnil] at h2; simp at h2)
  · intro entries h
    rw [ai_foldl_history]
    exact foldl_pushBounded_overflow 50 (by omega) entries h
  · intro ts freshId now text h
    unfold TranscriptState.addTranscriptSegment
    rw [if_neg h]

/-- C5 amended witness: a concrete commit to the fresh transcript state
is a pure append. -/
theorem C5_fifo_eviction_amended_witness :
    ((TranscriptState.init true).addTranscriptSegment "w" 3 "hi").transcript
      = (TranscriptState.init true).transcript ++
        [{ id := "w", text := "hi", timestamp := 3,
           startTime := (TranscriptState.init true).segmentStartTime.getD 3,
           endTime := 3, confidence := 1 }] :=
  C5_fifo_eviction_amended.2.2.2.2 (TranscriptState.init true) "w" 3 "hi"
    (by decide)

theorem dispatchAction_eq_nil {action : String}
    (h : action ∉ commandVocabulary) : dispatchAction action = [] := by
  simp only [commandVocabulary, List.mem_cons, List.not_mem_nil, or_false,
    not_or] at h
  obtain ⟨h1, h2, h3, h4, h5, h6, h7, h8⟩ := h
  simp [dispatchAction, h1, h2, h3, h4, h5, h6, h7, h8]

/-- An AI state with a configured remote NLP credential. -/
def aiWithKey : AIState :=
  { AIState.init with
    settings := { AIState.init.settings with apiKey := "sk-demo" } }

/-- C8 counterexample: the empty-string action is outside the
eight-command vocabulary, yet a remote response carrying it is NOT
logged: the falsy-action guard in processNaturalLanguageCommand
discards it without creating a command-log entry (the AI state comes
back unchanged), so the logged-and-discarded claim fails on it.  No
command event is dispatched either. -/
theorem C8_untrusted_classifier_counterexample :
    "" ∉ commandVocabulary ∧
    aiWithKey.processNaturalLanguageCommand "please brew coffee"
      (some { action := "", confidence := 9/10, reason := "unsupported" }) 0
      = (aiWithKey, []) := by
  constructor
  · decide
  · rfl

/-- C8 (amended): every remote-classifier response whose action is
outside the fixed eight-command vocabulary is discarded: no command
event is ever dispatched for it; when the action is additionally a
non-empty string (and a credential is configured, else the response is
never requested), it is logged to the bounded command history before
being discarded. -/
theorem C8_untrusted_classifier_amended (st : AIState) (t : String)
    (r : RemoteResponse) (now : Nat)
    (hv : r.action ∉ commandVocabulary) :
    (st.processNaturalLanguageCommand t (some r) now).2 = [] ∧
    (st.settings.apiKey ≠ "" → r.action ≠ "" →
      (st.processNaturalLanguageCommand t (some r) now).1.commandHistory
        = pushBounded st.maxHistorySize st.commandHistory
            { action := r.action, originalTranscript := t,
              confidence := some r.confidence, cmdType := "ai",
              timestamp := now }) := by
  unfold AIState.processNaturalLanguageCommand
  dsimp only
  by_cases hk : st.settings.apiKey = ""
  · rw [if_pos hk]
    exact ⟨rfl, fun h _ => absurd hk h⟩
  · rw [if_neg hk]
    by_cases ha : r.action = ""
    · rw [if_neg (not_not_intro ha)]
      exact ⟨rfl, fun _ hne => absurd ha hne⟩
    · rw [if_pos ha]
      refine ⟨?_, fun _ _ => rfl⟩
      simp only [AIState.executeCommand]
      exact dispatchAction_eq_nil hv

/-- C8 amended witness: a non-empty unknown action is logged and
discarded without any dispatched event. -/
theorem C8_untrusted_classifier_amended_witness :
    (aiWithKey.processNaturalLanguageCommand "please espresso"
      (some { action := "makeCoffee", confidence := 4/5, reason := "r" }) 0).2
      = [] ∧
    (aiWithKey.processNaturalLanguageCommand "please espresso"
      (some { action := "makeCoffee", confidence := 4/5, reason := "r" }) 0).1.commandHistory
      = pushBounded aiWithKey.maxHistorySize aiWithKey.commandHistory
          { action := "makeCoffee", originalTranscript := "please espresso",
            confidence := some (4/5), cmdType := "ai", timestamp := 0 } := by
  have h := C8_untrusted_classifier_amended aiWithKey "please espresso"
    { action := "makeCoffee", confidence := 4/5, reason := "r" } 0 (by decide)
  exact ⟨h.1, h.2 (by decide) (by decide)⟩

/-- C2 counterexample: in a session with no current source but also no
signed-in identity, requestStartRecording does not enter AwaitingSource:
the auth gate runs first, so the deferred-start flag stays down and the
attempt is queued as the pending post-auth action instead. -/
theorem C2_deferred_start_counterexample :
    ((AppState.init none).startRecording true 0).startAfterSource = false ∧
    ((AppState.init none).startRecording true 0).postAuthAction
      = some PendingAction.startRecording := by
  exact ⟨rfl, rfl⟩

theorem startRecording_with_source (st : AppState) (e : String) (src : Nat)
    (engineOk : Bool) (now : Nat)
    (hAuth : st.auth = some e) (hSrc : st.currentSource = some src) :
    (st.startRecording engineOk now).engineStartCalls
      = st.engineStartCalls + 1 ∧
    (st.startRecording engineOk now).startAfterSource
      = st.startAfterSource := by
  unfold AppState.startRecording
  rw [hAuth, hSrc]
  cases hrec : st.recorder.start engineOk with
  | error msg => exact ⟨rfl, rfl⟩
  | ok r => exact ⟨rfl, rfl⟩

theorem selectSource_no_pending (st : AppState) (src : Nat)
    (engineOk : Bool) (now : Nat) (h : st.startAfterSource = false) :
    st.selectSource src true engineOk now
      = { st with
          currentSource := some src,
          recorder := { st.recorder with stream := some src } } := by
  unfold AppState.selectSource
  rw [h]
  rfl

/-- C2 (amended): for every AUTHENTICATED session with no current
source, startRecording only raises the deferred-start flag
(AwaitingSource) and changes nothing else, in particular it does not
invoke Recorder.start; an immediately following successful selectSource
clears the flag and retries the recording start exactly once (exactly
one new Recorder.start invocation, whether or not that start succeeds);
a second successful selectSource triggers no further retry. -/
theorem C2_deferred_start_retry_amended (st : AppState) (e : String)
    (engineOk : Bool) (now : Nat)
    (hAuth : st.auth = some e) (hSrc : st.currentSource = none) :
    (st.startRecording engineOk now = { st with startAfterSource := true }) ∧
    (∀ (src : Nat) (engineOk2 : Bool) (now2 : Nat),
      ((st.startRecording engineOk now).selectSource src true engineOk2
          now2).engineStartCalls
        = st.engineStartCalls + 1 ∧
      ((st.startRecording engineOk now).selectSource src true engineOk2
          now2).startAfterSource = false) ∧
    (∀ (src : Nat) (engineOk2 : Bool) (now2 : Nat) (src3 : Nat)
        (engineOk3 : Bool) (now3 : Nat),
      ((((st.startRecording engineOk now).selectSource src true engineOk2
          now2).selectSource src3 true engineOk3 now3).engineStartCalls
        = ((st.startRecording engineOk now).selectSource src true engineOk2
            now2).engineStartCalls) ∧
      ((((st.startRecording engineOk now).selectSource src true engineOk2
          now2).selectSource src3 true engineOk3 now3).startAfterSource
        = false)) := by
  have h1 : st.startRecording engineOk now = { st with startAfterSource := true } := by
    unfold AppState.startRecording
    rw [hAuth, hSrc]
    rfl
  have hb : ∀ (src : Nat) (engineOk2 : Bool) (now2 : Nat),
      ((st.startRecording engineOk now).selectSource src true engineOk2
          now2).engineStartCalls = st.engineStartCalls + 1 ∧
      ((st.startRecording engineOk now).selectSource src true engineOk2
          now2).startAfterSource = false := by
    intro src engineOk2 now2
    rw [h1]
    exact startRecording_with_source
      { st with
        currentSource := some src,
        recorder := { st.recorder with stream := some src },
        startAfterSource := false } e src engineOk2 now2 hAuth rfl
  refine ⟨h1, hb, ?_⟩
  intro src engineOk2 now2 src3 engineOk3 now3
  rw [selectSource_no_pending _ src3 engineOk3 now3 (hb src engineOk2 now2).2]
  exact ⟨rfl, (hb src engineOk2 now2).2⟩

/-- A signed-in fresh session used as concrete witness data. -/
def authedApp : AppState := AppState.init (some "user@example.com")

/-- C2 amended witness: the signed-in fresh session defers the start,
and the following successful source selection retries exactly once. -/
theorem C2_deferred_start_retry_amended_witness :
    (authedApp.startRecording true 0
      = { authedApp with startAfterSource := true }) ∧
    ((authedApp.startRecording true 0).selectSource 1 true true
        5).engineStartCalls = authedApp.engineStartCalls + 1 ∧
    ((authedApp.startRecording true 0).selectSource 1 true true
        5).startAfterSource = false := by
  have h := C2_deferred_start_retry_amended authedApp "user@example.com"
    true 0 rfl rfl
  exact ⟨h.1, (h.2.1 1 true 5).1, (h.2.1 1 true 5).2⟩

theorem attemptGated_unauth (st : AppState) (a : PendingAction)
    (engineOk : Bool) (freshId : String) (now : Nat)
    (hA : st.auth = none) (hw : a.wellFormed = true) :
    st.attemptGated a engineOk freshId now
      = { st with postAuthAction := some a } := by
  have hN : st.auth.isNone = true := by rw [hA]; rfl
  cases a with
  | startRecording =>
      unfold AppState.attemptGated AppState.startRecording
      rw [hN]
      rfl
  | sendChat m =>
      unfold AppState.attemptGated AppState.sendChatMessage
      simp only [PendingAction.wellFormed, Bool.and_eq_true, beq_iff_eq,
        bne_iff_ne, ne_eq] at hw
      obtain ⟨ht, hne⟩ := hw
      dsimp only
      rw [ht, if_neg hne, hN]
      rfl
  | enableAI =>
      unfold AppState.attemptGated AppState.toggleAICommands
      rw [hN]
      rfl

theorem runPendingAction_preserves (st : AppState) (a : PendingAction)
    (engineOk : Bool) (freshId : String) (now : Nat) (e : String)
    (hA : st.auth = some e) :
    (st.runPendingAction a engineOk freshId now).resumedActions
      = st.resumedActions ∧
    (st.runPendingAction a engineOk freshId now).postAuthAction
      = st.postAuthAction := by
  cases a with
  | startRecording =>
      unfold AppState.runPendingAction AppState.startRecording
      rw [hA]
      cases st.currentSource with
      | none => exact ⟨rfl, rfl⟩
      | some v =>
          cases st.recorder.start engineOk with
          | error msg => exact ⟨rfl, rfl⟩
          | ok r => exact ⟨rfl, rfl⟩
  | sendChat m => exact ⟨rfl, rfl⟩
  | enableAI => exact ⟨rfl, rfl⟩

theorem handleAuthSignIn_no_pending (st : AppState)
    (email password freshId : String) (engineOk : Bool) (now : Nat)
    (hpost : st.postAuthAction = none)
    (hE : strTrim email ≠ "") (hP : password ≠ "") :
    (st.handleAuthSignIn email password engineOk freshId now).resumedActions
      = st.resumedActions := by
  unfold AppState.handleAuthSignIn
  rw [if_neg (by
    intro hor
    rcases hor with h | h
    · exact hE h
    · exact hP h)]
  dsimp only
  unfold AppState.resumePostAuthAction
  have hp2 : ({ st with auth := some (strTrim email) } : AppState).postAuthAction
      = none := hpost
  rw [hp2]

theorem handleAuthSignIn_resumes (st : AppState) (a : PendingAction)
    (email password freshId : String) (engineOk : Bool) (now : Nat)
    (hpost : st.postAuthAction = some a)
    (hE : strTrim email ≠ "") (hP : password ≠ "") :
    (st.handleAuthSignIn email password engineOk freshId now).resumedActions
      = st.resumedActions ++ [a] ∧
    (st.handleAuthSignIn email password engineOk freshId now).postAuthAction
      = none := by
  unfold AppState.handleAuthSignIn
  rw [if_neg (by
    intro hor
    rcases hor with h | h
    · exact hE h
    · exact hP h)]
  dsimp only
  unfold AppState.resumePostAuthAction
  have hp2 : ({ st with auth := some (strTrim email) } : AppState).postAuthAction
      = some a := hpost
  rw [hp2]
  dsimp only
  have hr := runPendingAction_preserves
    { st with
      auth := some (strTrim email),
      postAuthAction := none,
      resumedActions := st.resumedActions ++ [a] }
    a engineOk freshId now (strTrim email) rfl
  exact ⟨hr.1, hr.2⟩

/-- C6: auth-gate overwrite.  For any two gated-action attempts made
while unauthenticated, only the second remains queued (the first is
overwritten); a successful sign-in invokes the queued action exactly
once (the invocation trace grows by exactly that one action, so never
both and never twice) and discards it; a further sign-in invokes
nothing more. -/
theorem C6_auth_gate_overwrite (st : AppState) (a1 a2 : PendingAction)
    (email password freshId1 freshId2 freshId3 freshId4 : String)
    (engineOk1 engineOk2 : Bool) (n1 n2 n3 n4 : Nat)
    (hA : st.auth = none)
    (h1 : a1.wellFormed = true) (h2 : a2.wellFormed = true)
    (hE : strTrim email ≠ "") (hP : password ≠ "") :
    ((st.attemptGated a1 engineOk1 freshId1 n1).attemptGated a2 engineOk1
        freshId2 n2).postAuthAction = some a2 ∧
    (((st.attemptGated a1 engineOk1 freshId1 n1).attemptGated a2 engineOk1
        freshId2 n2).handleAuthSignIn email password engineOk2 freshId3
        n3).resumedActions = st.resumedActions ++ [a2] ∧
    (((st.attemptGated a1 engineOk1 freshId1 n1).attemptGated a2 engineOk1
        freshId2 n2).handleAuthSignIn email password engineOk2 freshId3
        n3).postAuthAction = none ∧
    ((((st.attemptGated a1 engineOk1 freshId1 n1).attemptGated a2 engineOk1
        freshId2 n2).handleAuthSignIn email password engineOk2 freshId3
        n3).handleAuthSignIn email password engineOk2 freshId4
        n4).resumedActions = st.resumedActions ++ [a2] := by
  have e1 := attemptGated_unauth st a1 engineOk1 freshId1 n1 hA h1
  have e2 := attemptGated_unauth ({ st with postAuthAction := some a1 })
    a2 engineOk1 freshId2 n2 hA h2
  rw [e1, e2]
  have hres := handleAuthSignIn_resumes
    ({ { st with postAuthAction := some a1 } with postAuthAction := some a2 })
    a2 email password freshId3 engineOk2 n3 rfl hE hP
  refine ⟨rfl, hres.1, hres.2, ?_⟩
  rw [handleAuthSignIn_no_pending _ email password freshId4 engineOk2 n4
    hres.2 hE hP]
  exact hres.1

/-- C6 witness: two concrete gated attempts (a chat message, then a
recording start) while signed out, followed by a concrete sign-in that
resumes only the second attempt. -/
theorem C6_auth_gate_overwrite_witness :
    (((AppState.init none).attemptGated (.sendChat "hi") true "f1" 1).attemptGated
        .startRecording true "f2" 2).postAuthAction
      = some PendingAction.startRecording ∧
    ((((AppState.init none).attemptGated (.sendChat "hi") true "f1" 1).attemptGated
        .startRecording true "f2" 2).handleAuthSignIn "a@b.c" "pw" true "f3"
        3).resumedActions
      = (AppState.init none).resumedActions ++ [PendingAction.startRecording] := by
  have h := C6_auth_gate_overwrite (AppState.init none) (.sendChat "hi")
    .startRecording "a@b.c" "pw" "f1" "f2" "f3" "f4" true true 1 2 3 4
    rfl (by decide) (by decide) (by decide) (by decide)
  exact ⟨h.1, h.2.1⟩
